import Mathlib

/-!
The assessor loop and the sample fetch of thread-dumper-sidecar

A shallow embedding of `cmd/main.go`.

* Go `int` is taken as the 64-bit signed integer of the deployment targets
  (amd64 / arm64); `int64` and `time.Duration` are 64-bit signed as well.
  A machine integer is an `Int`, and every arithmetic result that Go stores
  in such a variable is reduced by `wrap64`.
* A `float64` is modelled by `Float64`: NaN, the two infinities, and the
  finite values as rationals (every finite float64 is a rational, and the
  IEEE-754 ordering of finite values is the ordering of the rationals).
* One pass through the body of the assessor's `for` loop is `iteration`.
  What the pass reads from the outside world is its `Tick`; what it does to
  the outside world is the list of `Event`s it returns.
-/

namespace ThreadDumper

/-! ## Machine integers -/

/-- Two's-complement reduction of an integer to 64 bits. -/
def wrap64 (x : Int) : Int := (x + 2 ^ 63) % 2 ^ 64 - 2 ^ 63

/-- Largest value of a 64-bit signed integer. -/
def maxInt64 : Int := 2 ^ 63 - 1

/-- Smallest value of a 64-bit signed integer. -/
def minInt64 : Int := -(2 ^ 63)

/-- Membership in the range of a 64-bit signed integer. -/
def IsInt64 (x : Int) : Prop := minInt64 ≤ x ∧ x ≤ maxInt64

instance (x : Int) : Decidable (IsInt64 x) := by
  unfold IsInt64; exact inferInstance

/-- Nanoseconds in `time.Second`. -/
def Second : Int := 1000000000

/-- Go's `time.Duration(n) * time.Second` for an `int` n. -/
def seconds (n : Int) : Int := wrap64 (n * Second)

/-! ## float64 -/

/-- Values of a Go `float64`, as far as comparison is concerned. -/
inductive Float64 where
  | nan
  | negInf
  | fin (q : ℚ)
  | posInf
  deriving DecidableEq

namespace Float64

/-- Go's `a > b` on float64: false as soon as one side is NaN. -/
def gt : Float64 → Float64 → Bool
  | nan, _ => false
  | _, nan => false
  | negInf, _ => false
  | fin _, negInf => true
  | fin a, fin b => decide (b < a)
  | fin _, posInf => false
  | posInf, posInf => false
  | posInf, _ => true

/-- Go's `a >= b` on float64: false as soon as one side is NaN. -/
def ge : Float64 → Float64 → Bool
  | nan, _ => false
  | _, nan => false
  | negInf, negInf => true
  | negInf, _ => false
  | fin _, negInf => true
  | fin a, fin b => decide (b ≤ a)
  | fin _, posInf => false
  | posInf, _ => true

end Float64

/-! ## Data model -/

/-- The numeric fields of `cliArg`; `podName`, which only enters the query
URL, is left out. -/
structure cliArg where
  cpuLimit : Int
  alertThreshold : Int
  alertCpuAvgRate : Float64
  assessTotalSeconds : Int
  assessSilentSeconds : Int
  assessIntervalSeconds : Int

/-- The `defaultArg` literal of `main`. -/
def defaultArg : cliArg where
  cpuLimit := 8
  alertThreshold := 5
  alertCpuAvgRate := Float64.fin 35
  assessTotalSeconds := 120
  assessSilentSeconds := 120
  assessIntervalSeconds := 15

/-- The local variables of the assessor goroutine that live across
iterations: `hits`, `assessTimestamp` and `silent`. -/
structure State where
  hits : Int
  assessTimestamp : Int
  silent : Bool
  deriving DecidableEq

/-- What one iteration reads from outside: the value returned by
`fetchCurrentCpuAvgRate` if the iteration calls it, the first
`time.Now().UnixNano()` the iteration evaluates (line 72 when silent,
line 75 otherwise), and the second one (line 87, evaluated only in the
reset branch). -/
structure Tick where
  rate : Float64
  now : Int
  now2 : Int

/-- The effects of an iteration, logging left out. -/
inductive Event where
  /-- A call of `fetchCurrentCpuAvgRate` (line 74). -/
  | fetch
  /-- An evaluation of `time.Now().UnixNano()` that yields `v`. -/
  | clock (v : Int)
  /-- A call of `time.Sleep` with the duration `d`, in nanoseconds. -/
  | sleep (d : Int)
  /-- A send on `dumpSignalChan` (line 90). -/
  | signal
  deriving DecidableEq

/-- The value of `timeGap` computed on line 75. -/
def timeGap (assessTimestamp now : Int) : Int := wrap64 (now - assessTimestamp)

/-- The right-hand side of the comparison on line 76. -/
def totalWindow (arg : cliArg) : Int := seconds arg.assessTotalSeconds

/-- The argument of `time.Sleep` on line 93. -/
def samplingInterval (arg : cliArg) : Int := seconds arg.assessIntervalSeconds

/-- The argument of `time.Sleep` on line 68. -/
def silenceDuration (arg : cliArg) : Int := seconds arg.assessSilentSeconds

/-- One pass through the body of the `for` loop of the assessor goroutine
(lines 66-95). -/
def iteration (arg : cliArg) (s : State) (t : Tick) : State × List Event :=
  if s.silent then
    ({ hits := 0, assessTimestamp := t.now, silent := false },
      [Event.sleep (silenceDuration arg), Event.clock t.now])
  else
    let currentRate := t.rate
    let gap := timeGap s.assessTimestamp t.now
    let hits :=
      if gap < totalWindow arg then
        (if Float64.gt currentRate arg.alertCpuAvgRate then wrap64 (s.hits + 1) else s.hits)
      else 0
    let assessTimestamp :=
      if gap < totalWindow arg then s.assessTimestamp else t.now2
    let clocks :=
      if gap < totalWindow arg then [Event.clock t.now]
      else [Event.clock t.now, Event.clock t.now2]
    if hits ≥ arg.alertThreshold then
      ({ hits := hits, assessTimestamp := assessTimestamp, silent := true },
        Event.fetch :: clocks ++ [Event.signal])
    else
      ({ hits := hits, assessTimestamp := assessTimestamp, silent := false },
        Event.fetch :: clocks ++ [Event.sleep (samplingInterval arg)])

/-- The state in which the goroutine enters its loop (lines 60-62), `t0`
being the clock reading of line 61. -/
def initState (t0 : Int) : State :=
  { hits := 0, assessTimestamp := t0, silent := false }

/-- The state after the iterations fed by `ticks`, in order. -/
def run (arg : cliArg) (s : State) (ticks : List Tick) : State :=
  ticks.foldl (fun st t => (iteration arg st t).1) s

/-- The events of the iterations fed by `ticks`, one list per iteration. -/
def runEvents (arg : cliArg) : State → List Tick → List (List Event)
  | _, [] => []
  | s, t :: ts => (iteration arg s t).2 :: runEvents arg (iteration arg s t).1 ts

/-- A tick at `sec` seconds on the clock that fetches the finite rate `r`. -/
def tickAt (sec : Int) (r : ℚ) : Tick :=
  { rate := Float64.fin r, now := sec * Second, now2 := sec * Second }

/-! ## The sample fetch -/

/-- The run-time panics that `fetchCurrentCpuAvgRate` can raise. -/
inductive Panic where
  /-- A field read through a nil pointer. -/
  | nilDereference
  /-- An index expression `xs[index]` on a slice of the given length. -/
  | indexOutOfRange (index length : Nat)
  deriving DecidableEq

/-- The part of `dataResult` that is read: `Value`, a slice of `interface{}`
values (the type `α`). -/
structure dataResult (α : Type) where
  Value : List α

/-- The part of `respData` that is read. -/
structure respData (α : Type) where
  Result : List (dataResult α)

/-- The part of `queryResp` that is read. -/
structure queryResp (α : Type) where
  Data : respData α

/-- A non-nil `*http.Response` as the function sees it: its status code, and
what `json.NewDecoder(resp.Body).Decode(&respBody)` does with its body: the
contents of `respBody` afterwards and whether an error was returned. -/
structure Response (α : Type) where
  StatusCode : Int
  decoded : queryResp α
  decodeErr : Bool

/-- The function `fetchCurrentCpuAvgRate` (lines 109-125) on the outcome
`(resp, err)` of `http.Get`: `resp` is `none` for a nil pointer and `err` is
true for a non-nil error. `parseValue x` is the value that
`strconv.ParseFloat(fmt.Sprintf("%v", x), 64)` yields, its error dropped. -/
def fetchCurrentCpuAvgRate {α : Type} (parseValue : α → Float64)
    (resp : Option (Response α)) (err : Bool) : Except Panic Float64 :=
  -- line 112: `err != nil || resp.StatusCode != 200`, left to right
  let cond : Except Panic Bool :=
    if err then pure true
    else match resp with
      | none => throw Panic.nilDereference
      | some r => pure (decide (r.StatusCode ≠ 200))
  cond.bind fun failed =>
    if failed then
      -- line 113 reads `resp.StatusCode` for the log line, then line 114
      match resp with
      | none => throw Panic.nilDereference
      | some _ => pure (Float64.fin (-1))
    else
      match resp with
      | none => throw Panic.nilDereference
      | some r =>
        -- lines 117-121: a decode error is logged and the function goes on
        let respBody := r.decoded
        -- line 122: `respBody.Data.Result[0].Value[1]`
        match respBody.Data.Result with
        | [] => throw (Panic.indexOutOfRange 0 0)
        | d :: _ =>
          match d.Value with
          | [] => throw (Panic.indexOutOfRange 1 0)
          | [_] => throw (Panic.indexOutOfRange 1 1)
          | _ :: v :: _ => pure (parseValue v)

/-- The value of `hits` after lines 80-82, for a tick inside the window. -/
def hitsAfter (arg : cliArg) (hits : Int) (rate : Float64) : Int :=
  if Float64.gt rate arg.alertCpuAvgRate then wrap64 (hits + 1) else hits

/-- Whether tick `t` is counted by lines 76-82 against the window start
`ws`: inside the window and above the alert rate. -/
def countsInWindow (arg : cliArg) (ws : Int) (t : Tick) : Bool :=
  decide (timeGap ws t.now < totalWindow arg) && Float64.gt t.rate arg.alertCpuAvgRate


/-- The bounds on `hits` that every iteration keeps: between 0 and
`alertThreshold`, and strictly below it while sampling. -/
def HitsInv (arg : cliArg) (s : State) : Prop :=
  0 ≤ s.hits ∧ s.hits ≤ arg.alertThreshold ∧ (s.silent = false → s.hits < arg.alertThreshold)

/-- The ticks counted by lines 76-82 among `w`, against the window start `ws`. -/
def countedTicks (arg : cliArg) (ws : Int) (w : List Tick) : List Tick :=
  w.filter (countsInWindow arg ws)

/-- What `hits` stands for after the ticks `ticks`: the ticks split into `a`,
after which `hits` was 0, and `w`, during which the loop was sampling against
the window start it has now, and `hits` is the number of ticks of `w` that are
counted against that window start. -/
def WindowEvidence (arg : cliArg) (t0 : Int) (ticks : List Tick) : Prop :=
  ∃ a w, ticks = a ++ w ∧
    (run arg (initState t0) a).hits = 0 ∧
    (∀ w1 w2, w = w1 ++ w2 →
      (run arg (initState t0) (a ++ w1)).silent = false ∧
      (run arg (initState t0) (a ++ w1)).assessTimestamp =
        (run arg (initState t0) ticks).assessTimestamp) ∧
    (run arg (initState t0) ticks).hits =
      ((countedTicks arg (run arg (initState t0) ticks).assessTimestamp w).length : Int)

/-! ## Machine arithmetic that does not wrap -/

theorem wrap64_of_isInt64 {x : Int} (h : IsInt64 x) : wrap64 x = x := by
  unfold IsInt64 minInt64 maxInt64 at h
  unfold wrap64
  omega

theorem wrap64_succ {x : Int} (h : IsInt64 x) (hmax : x ≠ maxInt64) :
    wrap64 (x + 1) = x + 1 := by
  unfold IsInt64 minInt64 maxInt64 at h
  unfold maxInt64 at hmax
  unfold wrap64
  omega

theorem seconds_eq {n : Int} (h : IsInt64 (n * Second)) : seconds n = n * Second :=
  wrap64_of_isInt64 h

theorem timeGap_eq {ts now : Int} (h : IsInt64 (now - ts)) : timeGap ts now = now - ts :=
  wrap64_of_isInt64 h

theorem Float64.gt_self (a : Float64) : Float64.gt a a = false := by
  cases a <;> simp [Float64.gt]

/-! ## The three branches of an iteration -/

theorem iteration_silent (arg : cliArg) (s : State) (t : Tick) (hs : s.silent = true) :
    iteration arg s t =
      ({ hits := 0, assessTimestamp := t.now, silent := false },
        [Event.sleep (silenceDuration arg), Event.clock t.now]) := by
  simp [iteration, hs]

theorem iteration_inWindow (arg : cliArg) (s : State) (t : Tick) (hs : s.silent = false)
    (hw : timeGap s.assessTimestamp t.now < totalWindow arg) :
    iteration arg s t =
      if arg.alertThreshold ≤ hitsAfter arg s.hits t.rate then
        ({ hits := hitsAfter arg s.hits t.rate,
           assessTimestamp := s.assessTimestamp, silent := true },
          [Event.fetch, Event.clock t.now, Event.signal])
      else
        ({ hits := hitsAfter arg s.hits t.rate,
           assessTimestamp := s.assessTimestamp, silent := false },
          [Event.fetch, Event.clock t.now, Event.sleep (samplingInterval arg)]) := by
  simp [iteration, hitsAfter, hs, hw]

theorem hitsAfter_of_gt {arg : cliArg} {rate : Float64} (hits : Int)
    (hb : Float64.gt rate arg.alertCpuAvgRate = true) :
    hitsAfter arg hits rate = wrap64 (hits + 1) := by
  simp [hitsAfter, hb]

theorem hitsAfter_of_not_gt {arg : cliArg} {rate : Float64} (hits : Int)
    (hb : Float64.gt rate arg.alertCpuAvgRate = false) :
    hitsAfter arg hits rate = hits := by
  simp [hitsAfter, hb]

theorem iteration_inWindow_hits (arg : cliArg) (s : State) (t : Tick) (hs : s.silent = false)
    (hw : timeGap s.assessTimestamp t.now < totalWindow arg) :
    (iteration arg s t).1.hits = hitsAfter arg s.hits t.rate := by
  rw [iteration_inWindow arg s t hs hw]
  by_cases h : arg.alertThreshold ≤ hitsAfter arg s.hits t.rate
  · rw [if_pos h]
  · rw [if_neg h]

theorem iteration_expired (arg : cliArg) (s : State) (t : Tick) (hs : s.silent = false)
    (hw : totalWindow arg ≤ timeGap s.assessTimestamp t.now) :
    iteration arg s t =
      if arg.alertThreshold ≤ 0 then
        ({ hits := 0, assessTimestamp := t.now2, silent := true },
          [Event.fetch, Event.clock t.now, Event.clock t.now2, Event.signal])
      else
        ({ hits := 0, assessTimestamp := t.now2, silent := false },
          [Event.fetch, Event.clock t.now, Event.clock t.now2,
            Event.sleep (samplingInterval arg)]) := by
  have hw2 : ¬ timeGap s.assessTimestamp t.now < totalWindow arg := not_lt.mpr hw
  simp [iteration, hs, hw2]

/-! ## Single iterations -/

/-- C1: in a Sampling state, on a tick inside the window whose sample passes
the test of line 80, `hits` becomes the result of Go's `hits++` (which is
`hits + 1` whenever `hits` is a 64-bit integer below the maximum); a signal is
sent on that tick exactly when the incremented `hits` is at least
`alertThreshold`; when sent it is sent once and the mode becomes Silent, and
otherwise the mode stays Sampling. -/
theorem C1_breach_tick (arg : cliArg) (s : State) (t : Tick)
    (hs : s.silent = false)
    (hw : timeGap s.assessTimestamp t.now < totalWindow arg)
    (hb : Float64.gt t.rate arg.alertCpuAvgRate = true) :
    (iteration arg s t).1.hits = wrap64 (s.hits + 1) ∧
    (IsInt64 s.hits → s.hits ≠ maxInt64 → (iteration arg s t).1.hits = s.hits + 1) ∧
    (Event.signal ∈ (iteration arg s t).2 ↔
      arg.alertThreshold ≤ (iteration arg s t).1.hits) ∧
    (Event.signal ∈ (iteration arg s t).2 →
      (iteration arg s t).2.count Event.signal = 1 ∧ (iteration arg s t).1.silent = true) ∧
    (Event.signal ∉ (iteration arg s t).2 → (iteration arg s t).1.silent = false) := by
  rw [iteration_inWindow arg s t hs hw, hitsAfter_of_gt s.hits hb]
  by_cases hthr : arg.alertThreshold ≤ wrap64 (s.hits + 1)
  · rw [if_pos hthr]
    exact ⟨rfl, fun h1 h2 => wrap64_succ h1 h2, by simp [hthr],
      fun _ => ⟨by simp, rfl⟩, fun h => absurd (by simp) h⟩
  · rw [if_neg hthr]
    exact ⟨rfl, fun h1 h2 => wrap64_succ h1 h2, by simp [hthr],
      fun h => absurd h (by simp), fun _ => rfl⟩

/-- Witness of C1: threshold 5, window 120 s, samples above the alert rate at
10, 40, 70, 100 and 115 s: no signal on the first four ticks, one on the
fifth, which is the tick the theorem is applied to. -/
theorem C1_breach_tick_witness :
    (runEvents defaultArg (initState 0)
        [tickAt 10 50, tickAt 40 50, tickAt 70 50, tickAt 100 50, tickAt 115 50]).map
      (fun es => es.count Event.signal) = [0, 0, 0, 0, 1] ∧
    run defaultArg (initState 0) [tickAt 10 50, tickAt 40 50, tickAt 70 50, tickAt 100 50] =
      { hits := 4, assessTimestamp := 0, silent := false } ∧
    (iteration defaultArg { hits := 4, assessTimestamp := 0, silent := false }
      (tickAt 115 50)).1.hits = 4 + 1 ∧
    Event.signal ∈ (iteration defaultArg { hits := 4, assessTimestamp := 0, silent := false }
      (tickAt 115 50)).2 :=
  ⟨by decide, by decide,
    (C1_breach_tick defaultArg { hits := 4, assessTimestamp := 0, silent := false }
      (tickAt 115 50) rfl (by decide) (by decide)).2.1 (by decide) (by decide),
    by decide⟩

/-- C4: with `alertThreshold` at least 1, in a Sampling state, a tick whose
time gap has reached the total window sets `hits` to 0 and the window start to
the clock reading taken by the reset (line 87), sends no signal and stays in
Sampling, whatever the fetched sample is: the sample of that tick is not
counted. -/
theorem C4_window_expiry (arg : cliArg) (s : State) (t : Tick)
    (h1 : 1 ≤ arg.alertThreshold)
    (hs : s.silent = false)
    (hw : totalWindow arg ≤ timeGap s.assessTimestamp t.now) :
    (iteration arg s t).1 = { hits := 0, assessTimestamp := t.now2, silent := false } ∧
    Event.signal ∉ (iteration arg s t).2 ∧
    (∀ r : Float64, (iteration arg s { t with rate := r }).1 = (iteration arg s t).1) := by
  have hthr : ¬ arg.alertThreshold ≤ 0 := by omega
  refine ⟨?_, ?_, ?_⟩
  · rw [iteration_expired arg s t hs hw, if_neg hthr]
  · rw [iteration_expired arg s t hs hw, if_neg hthr]
    simp
  · intro r
    rw [iteration_expired arg s t hs hw, iteration_expired arg s { t with rate := r } hs hw]

/-- Witness of C4: threshold 5, window 120 s, samples above the alert rate at
10, 40, 70 and 100 s bring `hits` to 4, and the tick at 120 s (the one the
result is applied to) leaves `hits = 0` and sends no signal. -/
theorem C4_window_expiry_witness :
    run defaultArg (initState 0) [tickAt 10 50, tickAt 40 50, tickAt 70 50, tickAt 100 50] =
      { hits := 4, assessTimestamp := 0, silent := false } ∧
    totalWindow defaultArg ≤ timeGap 0 (tickAt 120 50).now ∧
    (iteration defaultArg { hits := 4, assessTimestamp := 0, silent := false }
      (tickAt 120 50)).1 = { hits := 0, assessTimestamp := 120 * Second, silent := false } ∧
    Event.signal ∉ (iteration defaultArg { hits := 4, assessTimestamp := 0, silent := false }
      (tickAt 120 50)).2 :=
  ⟨by decide, by decide,
    (C4_window_expiry defaultArg { hits := 4, assessTimestamp := 0, silent := false }
      (tickAt 120 50) (by decide) rfl (by decide)).1,
    (C4_window_expiry defaultArg { hits := 4, assessTimestamp := 0, silent := false }
      (tickAt 120 50) (by decide) rfl (by decide)).2.1⟩

/-- C5: with a non-negative alert rate, in a Sampling state with `hits`
below `alertThreshold`, on a tick inside the window whose fetch returned the
sentinel -1, the iteration leaves the state as it was (same `hits`, same
window start, still Sampling), sends no signal, and ends with one sleep of the
sampling interval. -/
theorem C5_failed_fetch (arg : cliArg) (s : State) (t : Tick)
    (hr : Float64.ge arg.alertCpuAvgRate (Float64.fin 0) = true)
    (hs : s.silent = false)
    (hh : s.hits < arg.alertThreshold)
    (hw : timeGap s.assessTimestamp t.now < totalWindow arg)
    (hf : t.rate = Float64.fin (-1)) :
    iteration arg s t =
      (s, [Event.fetch, Event.clock t.now, Event.sleep (samplingInterval arg)]) ∧
    Event.signal ∉ (iteration arg s t).2 := by
  have hb : Float64.gt t.rate arg.alertCpuAvgRate = false := by
    rw [hf]
    cases hq : arg.alertCpuAvgRate with
    | nan => simp [Float64.gt]
    | negInf => rw [hq] at hr; simp [Float64.ge] at hr
    | posInf => simp [Float64.gt]
    | fin q =>
      rw [hq] at hr
      simp only [Float64.ge, decide_eq_true_eq] at hr
      simp only [Float64.gt, decide_eq_false_iff_not, not_lt]
      linarith
  have hit : hitsAfter arg s.hits t.rate = s.hits := hitsAfter_of_not_gt s.hits hb
  have hthr : ¬ arg.alertThreshold ≤ s.hits := not_le.mpr hh
  have hst : ({ hits := s.hits, assessTimestamp := s.assessTimestamp, silent := false } : State)
      = s := by
    cases s; simp_all
  rw [iteration_inWindow arg s t hs hw, hit, if_neg hthr, hst]
  exact ⟨rfl, by simp⟩

/-- Witness of C5: a sample above the alert rate at 10 s, a failed fetch at
25 s, to which the theorem is applied, and a sample above the alert rate at
40 s leave `hits = 2`. -/
theorem C5_failed_fetch_witness :
    run defaultArg (initState 0) [tickAt 10 50, tickAt 25 (-1), tickAt 40 50] =
      { hits := 2, assessTimestamp := 0, silent := false } ∧
    iteration defaultArg { hits := 1, assessTimestamp := 0, silent := false } (tickAt 25 (-1)) =
      ({ hits := 1, assessTimestamp := 0, silent := false },
        [Event.fetch, Event.clock (25 * Second), Event.sleep (samplingInterval defaultArg)]) :=
  ⟨by decide,
    (C5_failed_fetch defaultArg { hits := 1, assessTimestamp := 0, silent := false }
      (tickAt 25 (-1)) (by decide) rfl (by decide) (by decide) rfl).1⟩

/-- C6: in Silent mode an iteration does one sleep of the silence duration
and then reads the clock once; it does not fetch and sends no signal, and it
ends in Sampling with `hits = 0` and the window start at that clock reading.
The silence duration is `assessSilentSeconds` seconds whenever that many
nanoseconds fit in 64 bits. -/
theorem C6_silent_step (arg : cliArg) (s : State) (t : Tick) (hs : s.silent = true) :
    iteration arg s t =
      ({ hits := 0, assessTimestamp := t.now, silent := false },
        [Event.sleep (silenceDuration arg), Event.clock t.now]) ∧
    Event.fetch ∉ (iteration arg s t).2 ∧
    Event.signal ∉ (iteration arg s t).2 ∧
    (IsInt64 (arg.assessSilentSeconds * Second) →
      silenceDuration arg = arg.assessSilentSeconds * Second) := by
  rw [iteration_silent arg s t hs]
  exact ⟨rfl, by simp, by simp, fun h => seconds_eq h⟩

/-- Witness of C6: the default configuration, silent after a signal at 115 s,
with the clock at 235 s after the sleep. -/
theorem C6_silent_step_witness :
    iteration defaultArg { hits := 5, assessTimestamp := 0, silent := true } (tickAt 235 50) =
      ({ hits := 0, assessTimestamp := 235 * Second, silent := false },
        [Event.sleep (120 * Second), Event.clock (235 * Second)]) :=
  (C6_silent_step defaultArg { hits := 5, assessTimestamp := 0, silent := true }
    (tickAt 235 50) rfl).1

/-- C7, as the claim states it, fails: with the default alert rate 35, a
sample of exactly 35 inside the window satisfies `sample ≥ rate threshold`
and leaves `hits` at 0. -/
theorem C7_counterexample :
    ¬ (∀ (arg : cliArg) (s : State) (t : Tick),
        s.silent = false →
        timeGap s.assessTimestamp t.now < totalWindow arg →
        Float64.ge t.rate arg.alertCpuAvgRate = true →
        (iteration arg s t).1.hits = s.hits + 1) := by
  intro h
  have h0 := h defaultArg (initState 0) (tickAt 10 35) rfl (by decide) (by decide)
  revert h0
  decide

/-- C7, amended: in a Sampling state, on a tick inside the window, `hits`
becomes the result of Go's `hits++` (`hits + 1` for a 64-bit `hits` below the
maximum) if the sample is strictly greater than the alert rate, and is left
unchanged otherwise; a sample equal to the alert rate leaves it unchanged. -/
theorem C7_strict_comparison (arg : cliArg) (s : State) (t : Tick)
    (hs : s.silent = false)
    (hw : timeGap s.assessTimestamp t.now < totalWindow arg) :
    (Float64.gt t.rate arg.alertCpuAvgRate = true →
      (iteration arg s t).1.hits = wrap64 (s.hits + 1) ∧
      (IsInt64 s.hits → s.hits ≠ maxInt64 → (iteration arg s t).1.hits = s.hits + 1)) ∧
    (Float64.gt t.rate arg.alertCpuAvgRate = false → (iteration arg s t).1.hits = s.hits) ∧
    (t.rate = arg.alertCpuAvgRate → (iteration arg s t).1.hits = s.hits) := by
  have key := iteration_inWindow_hits arg s t hs hw
  refine ⟨fun hb => ?_, fun hb => ?_, fun he => ?_⟩
  · have e : (iteration arg s t).1.hits = wrap64 (s.hits + 1) := by
      rw [key, hitsAfter_of_gt s.hits hb]
    exact ⟨e, fun h1 h2 => by rw [e]; exact wrap64_succ h1 h2⟩
  · rw [key, hitsAfter_of_not_gt s.hits hb]
  · rw [key, hitsAfter_of_not_gt s.hits (by rw [he]; exact Float64.gt_self _)]

/-- Witness of C7 amended: with the default alert rate 35, a sample of 36
raises `hits` from 0 to 1 and a sample of 35 leaves it at 0. -/
theorem C7_strict_comparison_witness :
    (iteration defaultArg (initState 0) (tickAt 10 36)).1.hits = 0 + 1 ∧
    (iteration defaultArg (initState 0) (tickAt 10 35)).1.hits = 0 :=
  ⟨((C7_strict_comparison defaultArg (initState 0) (tickAt 10 36) rfl (by decide)).1
      (by decide)).2 (by decide) (by decide),
    (C7_strict_comparison defaultArg (initState 0) (tickAt 10 35) rfl (by decide)).2.2 rfl⟩

/-- C8, as the claim states it, fails: with threshold 5 and samples above the
alert rate at 10, 40, 70, 100 and 115 s, the state right after the fifth tick,
the one that sends the signal, has `hits = 5` and the window start still at
0. -/
theorem C8_counterexample :
    Event.signal ∈ (iteration defaultArg { hits := 4, assessTimestamp := 0, silent := false }
        (tickAt 115 50)).2 ∧
    run defaultArg (initState 0)
        [tickAt 10 50, tickAt 40 50, tickAt 70 50, tickAt 100 50, tickAt 115 50] =
      { hits := 5, assessTimestamp := 0, silent := true } ∧
    ¬ (∀ (arg : cliArg) (s : State) (t : Tick),
        s.silent = false →
        Event.signal ∈ (iteration arg s t).2 →
        (iteration arg s t).1.hits = 0 ∧ (iteration arg s t).1.assessTimestamp = t.now) := by
  refine ⟨by decide, by decide, fun h => ?_⟩
  have h0 := (h defaultArg { hits := 4, assessTimestamp := 0, silent := false }
    (tickAt 115 50) rfl (by decide)).1
  revert h0
  decide

/-- C8, amended: with `alertThreshold` at least 1, in a Sampling state, the
tick that sends the signal does not reset the state: on entry into Silent
`hits` keeps its incremented value, which is at least `alertThreshold` and so
not 0, and the window start is unchanged. The reset to `hits = 0` and to a
window start at the clock reading is done by the next iteration, the Silent
one, after its sleep. -/
theorem C8_reset_on_silent_exit (arg : cliArg) (s : State) (t : Tick)
    (h1 : 1 ≤ arg.alertThreshold)
    (hs : s.silent = false)
    (hsig : Event.signal ∈ (iteration arg s t).2) :
    (iteration arg s t).1.silent = true ∧
    (iteration arg s t).1.assessTimestamp = s.assessTimestamp ∧
    arg.alertThreshold ≤ (iteration arg s t).1.hits ∧
    (iteration arg s t).1.hits ≠ 0 ∧
    (∀ t2 : Tick, iteration arg (iteration arg s t).1 t2 =
      ({ hits := 0, assessTimestamp := t2.now, silent := false },
        [Event.sleep (silenceDuration arg), Event.clock t2.now])) := by
  have hthr : ¬ arg.alertThreshold ≤ 0 := by omega
  by_cases hw : timeGap s.assessTimestamp t.now < totalWindow arg
  · rw [iteration_inWindow arg s t hs hw] at hsig ⊢
    by_cases hge : arg.alertThreshold ≤ hitsAfter arg s.hits t.rate
    · rw [if_pos hge]
      refine ⟨rfl, rfl, hge, ?_, fun t2 => iteration_silent arg _ t2 rfl⟩
      show hitsAfter arg s.hits t.rate ≠ 0
      omega
    · rw [if_neg hge] at hsig
      simp at hsig
  · rw [iteration_expired arg s t hs (not_lt.mp hw), if_neg hthr] at hsig
    simp at hsig

/-- Witness of C8 amended: the fifth tick of the run with samples above the
alert rate at 10, 40, 70, 100 and 115 s. -/
theorem C8_reset_on_silent_exit_witness :
    (iteration defaultArg { hits := 4, assessTimestamp := 0, silent := false }
      (tickAt 115 50)).1.silent = true ∧
    (iteration defaultArg { hits := 4, assessTimestamp := 0, silent := false }
      (tickAt 115 50)).1.assessTimestamp = 0 ∧
    defaultArg.alertThreshold ≤
      (iteration defaultArg { hits := 4, assessTimestamp := 0, silent := false }
        (tickAt 115 50)).1.hits :=
  have h := C8_reset_on_silent_exit defaultArg
    { hits := 4, assessTimestamp := 0, silent := false } (tickAt 115 50)
    (by decide) rfl (by decide)
  ⟨h.1, h.2.1, h.2.2.1⟩

/-- C9, as the claim states it, fails: with the default configuration, the
tick at 120 s of a window started at 0 resets the window and then sleeps one
sampling interval. -/
theorem C9_counterexample :
    ¬ (∀ (arg : cliArg) (s : State) (t : Tick),
        s.silent = false →
        totalWindow arg ≤ timeGap s.assessTimestamp t.now →
        Event.sleep (samplingInterval arg) ∉ (iteration arg s t).2) := by
  intro h
  exact h defaultArg (initState 0) (tickAt 120 50) rfl (by decide) (by decide)

/-- C9, amended: every Sampling iteration that sends no signal ends with
exactly one sleep, of the sampling interval, whether the tick was inside the
window or reset it; and with `alertThreshold` at least 1 a tick that resets the
window sends no signal, so it does sleep. -/
theorem C9_sleep_after_every_quiet_tick (arg : cliArg) (s : State) (t : Tick)
    (hs : s.silent = false) :
    (Event.signal ∉ (iteration arg s t).2 →
      ∃ pre, (iteration arg s t).2 = pre ++ [Event.sleep (samplingInterval arg)] ∧
        ∀ d, Event.sleep d ∉ pre) ∧
    (1 ≤ arg.alertThreshold → totalWindow arg ≤ timeGap s.assessTimestamp t.now →
      Event.signal ∉ (iteration arg s t).2 ∧
      Event.sleep (samplingInterval arg) ∈ (iteration arg s t).2) := by
  constructor
  · intro hn
    by_cases hw : timeGap s.assessTimestamp t.now < totalWindow arg
    · rw [iteration_inWindow arg s t hs hw] at hn ⊢
      by_cases hge : arg.alertThreshold ≤ hitsAfter arg s.hits t.rate
      · rw [if_pos hge] at hn
        simp at hn
      · rw [if_neg hge]
        exact ⟨[Event.fetch, Event.clock t.now], rfl, by simp⟩
    · rw [iteration_expired arg s t hs (not_lt.mp hw)] at hn ⊢
      by_cases hge : arg.alertThreshold ≤ 0
      · rw [if_pos hge] at hn
        simp at hn
      · rw [if_neg hge]
        exact ⟨[Event.fetch, Event.clock t.now, Event.clock t.now2], rfl, by simp⟩
  · intro h1 hw
    have hthr : ¬ arg.alertThreshold ≤ 0 := by omega
    rw [iteration_expired arg s t hs hw, if_neg hthr]
    simp

/-- Witness of C9 amended: the tick at 120 s of a window started at 0, under
the default configuration. -/
theorem C9_sleep_after_every_quiet_tick_witness :
    Event.signal ∉ (iteration defaultArg (initState 0) (tickAt 120 50)).2 ∧
    Event.sleep (samplingInterval defaultArg) ∈
      (iteration defaultArg (initState 0) (tickAt 120 50)).2 :=
  (C9_sleep_after_every_quiet_tick defaultArg (initState 0) (tickAt 120 50) rfl).2
    (by decide) (by decide)

/-! ## Runs of the loop -/

theorem run_concat (arg : cliArg) (s : State) (l : List Tick) (t : Tick) :
    run arg s (l ++ [t]) = (iteration arg (run arg s l) t).1 := by
  simp [run, List.foldl_append]

theorem hitsAfter_eq_of_bounds {arg : cliArg} {hits : Int} (rate : Float64)
    (h2 : arg.alertThreshold ≤ maxInt64) (h0 : 0 ≤ hits) (hlt : hits < arg.alertThreshold) :
    hitsAfter arg hits rate =
      hits + (if Float64.gt rate arg.alertCpuAvgRate then 1 else 0) := by
  have hr : IsInt64 hits := by
    unfold IsInt64 minInt64
    unfold maxInt64 at *
    omega
  have hm : hits ≠ maxInt64 := by omega
  unfold hitsAfter
  by_cases hb : Float64.gt rate arg.alertCpuAvgRate = true
  · rw [if_pos hb, if_pos hb, wrap64_succ hr hm]
  · rw [if_neg hb, if_neg hb, add_zero]

theorem hitsInv_iteration (arg : cliArg) (h1 : 1 ≤ arg.alertThreshold)
    (h2 : arg.alertThreshold ≤ maxInt64) (s : State) (t : Tick) (h : HitsInv arg s) :
    HitsInv arg (iteration arg s t).1 := by
  obtain ⟨h0, hle, hlt⟩ := h
  have hthr : ¬ arg.alertThreshold ≤ 0 := by omega
  cases hs : s.silent with
  | true =>
    rw [iteration_silent arg s t hs]
    exact ⟨le_refl _, by show (0 : Int) ≤ arg.alertThreshold; omega,
      fun _ => by show (0 : Int) < arg.alertThreshold; omega⟩
  | false =>
    by_cases hw : timeGap s.assessTimestamp t.now < totalWindow arg
    · have hA := hitsAfter_eq_of_bounds t.rate h2 h0 (hlt hs)
      have hA0 : 0 ≤ hitsAfter arg s.hits t.rate := by rw [hA]; split <;> omega
      have hA1 : hitsAfter arg s.hits t.rate ≤ arg.alertThreshold := by
        rw [hA]; have := hlt hs; split <;> omega
      rw [iteration_inWindow arg s t hs hw]
      by_cases hge : arg.alertThreshold ≤ hitsAfter arg s.hits t.rate
      · rw [if_pos hge]
        exact ⟨hA0, hA1, fun hc => by simp at hc⟩
      · rw [if_neg hge]
        exact ⟨hA0, hA1, fun _ => not_le.mp hge⟩
    · rw [iteration_expired arg s t hs (not_lt.mp hw), if_neg hthr]
      exact ⟨le_refl _, by show (0 : Int) ≤ arg.alertThreshold; omega,
        fun _ => by show (0 : Int) < arg.alertThreshold; omega⟩

theorem hitsInv_run (arg : cliArg) (h1 : 1 ≤ arg.alertThreshold)
    (h2 : arg.alertThreshold ≤ maxInt64) (ticks : List Tick) :
    ∀ s : State, HitsInv arg s → HitsInv arg (run arg s ticks) := by
  induction ticks with
  | nil => intro s h; exact h
  | cons t ts ih =>
    intro s h
    exact ih _ (hitsInv_iteration arg h1 h2 s t h)

theorem hitsInv_initState (arg : cliArg) (h1 : 1 ≤ arg.alertThreshold) (t0 : Int) :
    HitsInv arg (initState t0) :=
  ⟨le_refl _, by show (0 : Int) ≤ arg.alertThreshold; omega,
    fun _ => by show (0 : Int) < arg.alertThreshold; omega⟩

/-- C2: with `alertThreshold` at least 1 (and a Go `int`, so at most the
64-bit maximum), after any sequence of iterations from the initial state,
whatever the samples and the clock readings, `hits` lies between 0 and
`alertThreshold`. -/
theorem C2_hits_bounded (arg : cliArg) (h1 : 1 ≤ arg.alertThreshold)
    (h2 : arg.alertThreshold ≤ maxInt64) (t0 : Int) (ticks : List Tick) :
    0 ≤ (run arg (initState t0) ticks).hits ∧
    (run arg (initState t0) ticks).hits ≤ arg.alertThreshold := by
  have h := hitsInv_run arg h1 h2 ticks (initState t0) (hitsInv_initState arg h1 t0)
  exact ⟨h.1, h.2.1⟩

/-- Witness of C2: the default configuration after five samples above the
alert rate, where `hits` has reached the threshold 5. -/
theorem C2_hits_bounded_witness :
    0 ≤ (run defaultArg (initState 0)
      [tickAt 10 50, tickAt 40 50, tickAt 70 50, tickAt 100 50, tickAt 115 50]).hits ∧
    (run defaultArg (initState 0)
      [tickAt 10 50, tickAt 40 50, tickAt 70 50, tickAt 100 50, tickAt 115 50]).hits ≤ 5 :=
  C2_hits_bounded defaultArg (by decide) (by decide) 0
    [tickAt 10 50, tickAt 40 50, tickAt 70 50, tickAt 100 50, tickAt 115 50]

theorem countedTicks_concat (arg : cliArg) (ws : Int) (w : List Tick) (t : Tick) :
    ((countedTicks arg ws (w ++ [t])).length : Int) =
      (countedTicks arg ws w).length + (if countsInWindow arg ws t then 1 else 0) := by
  unfold countedTicks
  rw [List.filter_append, List.length_append]
  by_cases h : countsInWindow arg ws t = true
  · simp [List.filter, h]
  · simp [List.filter, h]

theorem windowEvidence_fresh (arg : cliArg) (t0 : Int) (ticks : List Tick)
    (hs : (run arg (initState t0) ticks).silent = false)
    (hh : (run arg (initState t0) ticks).hits = 0) :
    WindowEvidence arg t0 ticks := by
  refine ⟨ticks, [], (List.append_nil _).symm, hh, ?_, ?_⟩
  · intro w1 w2 hw
    have hw1 : w1 = [] := (List.append_eq_nil.mp hw.symm).1
    subst hw1
    rw [List.append_nil]
    exact ⟨hs, rfl⟩
  · rw [hh]; rfl

theorem windowEvidence_run (arg : cliArg) (h1 : 1 ≤ arg.alertThreshold)
    (h2 : arg.alertThreshold ≤ maxInt64) (t0 : Int) (ticks : List Tick) :
    (run arg (initState t0) ticks).silent = false → WindowEvidence arg t0 ticks := by
  induction ticks using List.reverseRecOn with
  | nil => intro hs; exact windowEvidence_fresh arg t0 [] hs rfl
  | append_singleton l t ih =>
    intro hs'
    have hthr : ¬ arg.alertThreshold ≤ 0 := by omega
    have hinv := hitsInv_run arg h1 h2 l (initState t0) (hitsInv_initState arg h1 t0)
    have hrun := run_concat arg (initState t0) l t
    cases hs : (run arg (initState t0) l).silent with
    | true =>
      apply windowEvidence_fresh arg t0 (l ++ [t]) hs'
      rw [hrun, iteration_silent arg _ t hs]
    | false =>
      by_cases hw : timeGap (run arg (initState t0) l).assessTimestamp t.now < totalWindow arg
      · obtain ⟨a, w, hl, ha, hopen, hcount⟩ := ih hs
        have hhits := iteration_inWindow_hits arg _ t hs hw
        have hts : (run arg (initState t0) (l ++ [t])).assessTimestamp =
            (run arg (initState t0) l).assessTimestamp := by
          rw [hrun, iteration_inWindow arg _ t hs hw]
          by_cases hge : arg.alertThreshold ≤ hitsAfter arg (run arg (initState t0) l).hits t.rate
          · rw [if_pos hge]
          · rw [if_neg hge]
        refine ⟨a, w ++ [t], by rw [hl, List.append_assoc], ha, ?_, ?_⟩
        · intro w1 w2 hsplit
          rcases List.eq_nil_or_concat w2 with hnil | ⟨w2', x, hcat⟩
          · subst hnil
            rw [List.append_nil] at hsplit
            subst hsplit
            rw [← List.append_assoc, ← hl]
            exact ⟨hs', rfl⟩
          · rw [hcat, List.concat_eq_append, ← List.append_assoc] at hsplit
            have hwe : w = w1 ++ w2' := List.append_inj_left' hsplit rfl
            have := hopen w1 w2' hwe
            rw [hts]
            exact this
        · rw [hts, countedTicks_concat, ← hcount, hrun, hhits,
            hitsAfter_eq_of_bounds t.rate h2 hinv.1 (hinv.2.2 hs)]
          have hc : countsInWindow arg (run arg (initState t0) l).assessTimestamp t =
              Float64.gt t.rate arg.alertCpuAvgRate := by
            simp [countsInWindow, hw]
          rw [hc]
      · apply windowEvidence_fresh arg t0 (l ++ [t]) hs'
        rw [hrun, iteration_expired arg _ t hs (not_lt.mp hw), if_neg hthr]

/-- C3: with `alertThreshold` at least 1 (and a Go `int`), in any run from the
initial state, a tick `tk` that sends the signal has the evidence of one
window behind it. The ticks before it split into `a` and `w`: after `a` the
count `hits` was 0, all through `w` the loop was sampling with the window
start `ws` it still has when `tk` arrives, and among the ticks of `w` followed
by `tk` at least `alertThreshold` fetched a sample above the alert rate at a
clock reading less than the total window after `ws`. They need not be
adjacent in `w`. -/
theorem C3_signal_evidence (arg : cliArg) (h1 : 1 ≤ arg.alertThreshold)
    (h2 : arg.alertThreshold ≤ maxInt64) (t0 : Int) (pre : List Tick) (tk : Tick)
    (hsig : Event.signal ∈ (iteration arg (run arg (initState t0) pre) tk).2) :
    ∃ a w, pre = a ++ w ∧
      (run arg (initState t0) a).hits = 0 ∧
      (∀ w1 w2, w = w1 ++ w2 →
        (run arg (initState t0) (a ++ w1)).silent = false ∧
        (run arg (initState t0) (a ++ w1)).assessTimestamp =
          (run arg (initState t0) pre).assessTimestamp) ∧
      arg.alertThreshold ≤
        (((w ++ [tk]).filter (fun t =>
          decide (timeGap (run arg (initState t0) pre).assessTimestamp t.now < totalWindow arg)
            && Float64.gt t.rate arg.alertCpuAvgRate)).length : Int) := by
  have hthr : ¬ arg.alertThreshold ≤ 0 := by omega
  have hinv := hitsInv_run arg h1 h2 pre (initState t0) (hitsInv_initState arg h1 t0)
  cases hs : (run arg (initState t0) pre).silent with
  | true =>
    rw [iteration_silent arg _ tk hs] at hsig
    simp at hsig
  | false =>
    by_cases hw : timeGap (run arg (initState t0) pre).assessTimestamp tk.now < totalWindow arg
    · obtain ⟨a, w, hl, ha, hopen, hcount⟩ := windowEvidence_run arg h1 h2 t0 pre hs
      refine ⟨a, w, hl, ha, hopen, ?_⟩
      rw [iteration_inWindow arg _ tk hs hw] at hsig
      by_cases hge : arg.alertThreshold ≤ hitsAfter arg (run arg (initState t0) pre).hits tk.rate
      · have hcc := countedTicks_concat arg (run arg (initState t0) pre).assessTimestamp w tk
        have hc : countsInWindow arg (run arg (initState t0) pre).assessTimestamp tk =
            Float64.gt tk.rate arg.alertCpuAvgRate := by
          simp [countsInWindow, hw]
        rw [hc, ← hcount] at hcc
        rw [hitsAfter_eq_of_bounds tk.rate h2 hinv.1 (hinv.2.2 hs), ← hcc] at hge
        exact hge
      · rw [if_neg hge] at hsig
        simp at hsig
    · rw [iteration_expired arg _ tk hs (not_lt.mp hw), if_neg hthr] at hsig
      simp at hsig

/-- Witness of C3: the default configuration, samples above the alert rate at
10, 40, 70 and 100 s with one below it at 55 s in between, and the signal at
115 s. -/
theorem C3_signal_evidence_witness :
    ∃ a w, [tickAt 10 50, tickAt 40 50, tickAt 55 20, tickAt 70 50, tickAt 100 50] = a ++ w ∧
      (run defaultArg (initState 0) a).hits = 0 ∧
      (∀ w1 w2, w = w1 ++ w2 →
        (run defaultArg (initState 0) (a ++ w1)).silent = false ∧
        (run defaultArg (initState 0) (a ++ w1)).assessTimestamp =
          (run defaultArg (initState 0)
            [tickAt 10 50, tickAt 40 50, tickAt 55 20, tickAt 70 50,
              tickAt 100 50]).assessTimestamp) ∧
      defaultArg.alertThreshold ≤
        (((w ++ [tickAt 115 50]).filter (fun t =>
          decide (timeGap (run defaultArg (initState 0)
              [tickAt 10 50, tickAt 40 50, tickAt 55 20, tickAt 70 50,
                tickAt 100 50]).assessTimestamp t.now < totalWindow defaultArg)
            && Float64.gt t.rate defaultArg.alertCpuAvgRate)).length : Int) :=
  C3_signal_evidence defaultArg (by decide) (by decide) 0
    [tickAt 10 50, tickAt 40 50, tickAt 55 20, tickAt 70 50, tickAt 100 50] (tickAt 115 50)
    (by decide)

/-- C10, the code at the failing inputs: a transport error with a nil
response makes `fetchCurrentCpuAvgRate` panic on the `resp.StatusCode` of its
log line instead of returning -1; a body whose decoding fails is only logged,
after which an empty `result` or a `value` of fewer than two elements makes the
index expression panic, and a decoded `value[1]` is returned as the sample.
A response with a status other than 200 does return -1. -/
theorem C10_fetch_failures {α : Type} (parseValue : α → Float64) :
    fetchCurrentCpuAvgRate parseValue none true = Except.error Panic.nilDereference ∧
    fetchCurrentCpuAvgRate parseValue
      (some { StatusCode := 200, decoded := ⟨⟨[]⟩⟩, decodeErr := true }) false
      = Except.error (Panic.indexOutOfRange 0 0) ∧
    (∀ x : α, fetchCurrentCpuAvgRate parseValue
      (some { StatusCode := 200, decoded := ⟨⟨[⟨[x]⟩]⟩⟩, decodeErr := true }) false
      = Except.error (Panic.indexOutOfRange 1 1)) ∧
    (∀ x y : α, fetchCurrentCpuAvgRate parseValue
      (some { StatusCode := 200, decoded := ⟨⟨[⟨[x, y]⟩]⟩⟩, decodeErr := true }) false
      = Except.ok (parseValue y)) ∧
    (∀ body : queryResp α, ∀ e : Bool, fetchCurrentCpuAvgRate parseValue
      (some { StatusCode := 503, decoded := body, decodeErr := e }) false
      = Except.ok (Float64.fin (-1))) :=
  ⟨rfl, rfl, fun _ => rfl, fun _ _ => rfl, fun _ _ => rfl⟩

end ThreadDumper
